import Mathlib

/-!
Verification of the Growth Experiment Copilot statistics engine and frontend
API layer.  The data shapes (`DiDDataPoint`, `CausalAnalysisRequest`,
`ExperimentDesignResponse`, the API client functions, the analysis form's
DiD submit handler) are embedded from the frontend TypeScript sources
(`frontend/lib/api.ts`, `frontend/app/analysis/page.tsx`).  The numeric
backend (StatisticsPrimitives, SampleSizeCalculator, CausalAnalyzer,
orchestrators) is not part of the repository snapshot, so those operations
are modelled from the specification, with real-valued transcendental parts
(normal CDF tails, square roots, normal quantiles) abstracted as explicit
function parameters; every rational computation is embedded exactly over `ℚ`.
-/

namespace GrowthCopilot

/-! ## Data model (from `frontend/lib/api.ts`) -/

/-- The `group` tag of a `DiDDataPoint` (`'treatment' | 'control'`). -/
inductive DiDGroup where
  | treatment
  | control
deriving DecidableEq, Repr

/-- The `period` tag of a `DiDDataPoint` (`'pre' | 'post'`). -/
inductive DiDPeriod where
  | pre
  | post
deriving DecidableEq, Repr

/-- `DiDDataPoint` from `frontend/lib/api.ts`: one cell of a DiD panel.
`users` and `outcome` are TypeScript `number`s; the data model constrains
`users` to a positive integer and `outcome` to a count or aggregate, so we
embed them as `ℤ` and `ℚ`. -/
structure DiDDataPoint where
  group : DiDGroup
  period : DiDPeriod
  users : ℤ
  outcome : ℚ
deriving DecidableEq, Repr

/-- The DiD metric type tag (`'proportion' | 'mean'`). -/
inductive MetricType where
  | proportion
  | mean
deriving DecidableEq, Repr

/-- `CausalDiDRequest` from `frontend/lib/api.ts`. -/
structure CausalDiDRequest where
  data : List DiDDataPoint
  metric_type : MetricType
deriving Repr

/-- `UpliftDataPoint` from `frontend/lib/api.ts` (features omitted: the
uplift path is an unimplemented stub and never reads them). -/
structure UpliftDataPoint where
  treatment : ℚ
  outcome : ℚ
deriving Repr

/-- `CausalUpliftRequest` from `frontend/lib/api.ts`. -/
structure CausalUpliftRequest where
  data : List UpliftDataPoint
deriving Repr

/-- The causal analysis mode tag (`'did' | 'uplift'`). -/
inductive CausalMode where
  | did
  | uplift
deriving DecidableEq, Repr

/-- `CausalAnalysisRequest` from `frontend/lib/api.ts`. -/
structure CausalAnalysisRequest where
  mode : CausalMode
  did_data : Option CausalDiDRequest
  uplift_data : Option CausalUpliftRequest
deriving Repr

/-! ## CausalAnalyzer (DiD)

Modelled from the spec (no backend source in the repository): §4.4
`analyzeDiD(panel, metric_type) → DiDResult`.  Group means are
`outcome / users` in both modes; the DiD estimate is
`(treatment_post − treatment_pre) − (control_post − control_pre)`;
the squared standard error is the sum of the four Bernoulli-style cell
variances `m(1−m)/n`.  The standard error itself and the z-test p-value
need a square root and the normal CDF, which are not rational; we keep the
exactly-computable fragment (`did_estimate`, `group_means`, `variance_sum`,
the `InvalidInput` guard), which is all the claims touch. -/

/-- One cell of a DiD panel: raw user count and outcome aggregate. -/
structure DiDCell where
  users : ℤ
  outcome : ℚ
deriving DecidableEq, Repr

/-- A 2×2 DiD panel: one cell per (group, period) combination. -/
structure DiDPanel where
  treatment_pre : DiDCell
  treatment_post : DiDCell
  control_pre : DiDCell
  control_post : DiDCell
deriving DecidableEq, Repr

/-- Modelled from the spec: a cell's group mean is `outcome / users`
(event rate in proportion mode, average in mean mode). -/
def cellMean (c : DiDCell) : ℚ := c.outcome / (c.users : ℚ)

/-- Modelled from the spec: Bernoulli-style cell variance `m(1−m)/n`. -/
def cellVariance (c : DiDCell) : ℚ :=
  cellMean c * (1 - cellMean c) / (c.users : ℚ)

/-- Error taxonomy of the numeric primitives (spec §7). -/
inductive StatError where
  | invalidInput
  | divisionByZero
deriving DecidableEq, Repr

/-- The four group means reported inside a `DiDResult`. -/
structure GroupMeans where
  treatment_pre : ℚ
  treatment_post : ℚ
  control_pre : ℚ
  control_post : ℚ
deriving DecidableEq, Repr

/-- The exactly-computable fragment of `DiDResult` (spec §3):
the DiD point estimate, the squared standard error (sum of the four cell
variances) and the four group means. -/
structure DiDResult where
  did_estimate : ℚ
  variance_sum : ℚ
  group_means : GroupMeans
deriving DecidableEq, Repr

/-- Modelled from the spec: `analyzeDiD` (§4.4).  Fails with `InvalidInput`
when a cell lacks a positive user count (the data model requires
`users > 0`; the spec names the zero-user case); otherwise computes the
four group means, the DiD estimate and the variance sum.  Per the spec both
metric modes compute means as `outcome / users`, so the estimate does not
depend on `metricType`. -/
def analyzeDiD (panel : DiDPanel) (metricType : MetricType) :
    Except StatError DiDResult :=
  if panel.treatment_pre.users ≤ 0 ∨ panel.treatment_post.users ≤ 0 ∨
      panel.control_pre.users ≤ 0 ∨ panel.control_post.users ≤ 0 then
    .error .invalidInput
  else
    let mtPre := cellMean panel.treatment_pre
    let mtPost := cellMean panel.treatment_post
    let mcPre := cellMean panel.control_pre
    let mcPost := cellMean panel.control_post
    .ok
      { did_estimate := (mtPost - mtPre) - (mcPost - mcPre)
        variance_sum :=
          cellVariance panel.treatment_pre + cellVariance panel.treatment_post +
            cellVariance panel.control_pre + cellVariance panel.control_post
        group_means :=
          { treatment_pre := mtPre
            treatment_post := mtPost
            control_pre := mcPre
            control_post := mcPost } }

/-- Swap the treatment and control labels of a DiD panel. -/
def swapGroups (panel : DiDPanel) : DiDPanel :=
  { treatment_pre := panel.control_pre
    treatment_post := panel.control_post
    control_pre := panel.treatment_pre
    control_post := panel.treatment_post }

/-! ## StatisticsPrimitives

Modelled from the spec (no backend source in the repository): §4.1.
The two-sided normal tail probability `2(1−Φ(z))` is not a rational
function; since the z statistic enters it only through `|z|`, we pass the
tail as an abstract function `tail : ℚ → ℚ` of the *squared* z statistic
(`tail q` stands for `2(1−Φ(√q))`, so `tail 0 = 1`).  The squared statistic
itself is exactly rational. -/

/-- Result of `twoProportionZTest`: the squared z statistic and the
two-sided p-value. -/
structure ZTestResult where
  zsq : ℚ
  p_value : ℚ
deriving DecidableEq, Repr

/-- Pooled success proportion `(x1 + x2) / (n1 + n2)` of two samples. -/
def pooledProportion (x1 n1 x2 n2 : ℕ) : ℚ :=
  ((x1 : ℚ) + (x2 : ℚ)) / ((n1 : ℚ) + (n2 : ℚ))

/-- Pooled variance `p̂(1−p̂)(1/n1 + 1/n2)` of the difference of two sample
proportions. -/
def pooledVariance (x1 n1 x2 n2 : ℕ) : ℚ :=
  pooledProportion x1 n1 x2 n2 * (1 - pooledProportion x1 n1 x2 n2) *
    (1 / (n1 : ℚ) + 1 / (n2 : ℚ))

/-- The squared z statistic `(p1 − p2)² / var` of the pooled z-test. -/
def zSquared (x1 n1 x2 n2 : ℕ) : ℚ :=
  ((x1 : ℚ) / (n1 : ℚ) - (x2 : ℚ) / (n2 : ℚ)) ^ 2 / pooledVariance x1 n1 x2 n2

/-- Modelled from the spec: `twoProportionZTest(x1, n1, x2, n2)` (§4.1),
a pooled-proportion two-sided z-test.  Fails with `InvalidInput` on an
empty sample; returns `p_value = 1` outright when the pooled variance is
zero (identical degenerate proportions), avoiding the division by zero;
otherwise forms `z² = (p1 − p2)² / var` and applies the normal tail. -/
def twoProportionZTest (tail : ℚ → ℚ) (x1 n1 x2 n2 : ℕ) :
    Except StatError ZTestResult :=
  if n1 = 0 ∨ n2 = 0 then .error .invalidInput
  else if pooledVariance x1 n1 x2 n2 = 0 then .ok { zsq := 0, p_value := 1 }
  else
    .ok
      { zsq := zSquared x1 n1 x2 n2
        p_value := tail (zSquared x1 n1 x2 n2) }

/-- Modelled from the spec: `proportionCI(successes, n, confidence)` (§4.1),
a normal-approximation interval around the observed rate, clamped to
`[0, 1]` (spec §8 requires `0 ≤ low ≤ observed_rate ≤ high ≤ 1`).  The
half-width `z·√(p̂(1−p̂)/n)` involves a square root, so it is abstracted as
a function `halfWidth successes n confidence`; the interval construction
around `p̂ = successes/n` and the `InvalidInput` guard for `n = 0` are
exact. -/
def proportionCI (halfWidth : ℕ → ℕ → ℚ → ℚ) (successes n : ℕ)
    (confidence : ℚ) : Except StatError (ℚ × ℚ) :=
  if n = 0 then .error .invalidInput
  else
    .ok
      (max 0 ((successes : ℚ) / (n : ℚ) - halfWidth successes n confidence),
        min 1 ((successes : ℚ) / (n : ℚ) + halfWidth successes n confidence))

/-! ## SampleSizeCalculator

Modelled from the spec (no backend source in the repository): §4.2.  The
standard-normal quantile function (giving `z_{1−α/2}` and `z_{1−β}`) is not
rational; it is abstracted as `zquant : ℚ → ℚ`.  The power-formula
arithmetic and the ceiling are exact over `ℚ`. -/

/-- Modelled from the spec: the power-formula body of §4.2 with
`p1 = baseline_rate` and `p2 = p1 + mde`, whose denominator
`(p1 − p2)²` equals `mde²`. -/
def sampleSizeFormula (zsum p mde : ℚ) : ℚ :=
  zsum ^ 2 * ((p * (1 - p) + (p + mde) * (1 - (p + mde))) / mde ^ 2)

/-- Modelled from the spec: `computeSampleSize(baseline_rate, mde, alpha,
power)` (§4.2) with the documented absolute-delta convention
`p2 = baseline_rate + mde`:
`n = ⌈(z_{1−α/2} + z_{1−β})² (p1(1−p1) + p2(1−p2)) / (p1 − p2)²⌉`, failing
with `InvalidInput` when `baseline_rate ∉ (0,1)`, `mde ≤ 0` or `p2 ≥ 1`. -/
def computeSampleSize (zquant : ℚ → ℚ) (baseline_rate mde alpha power : ℚ) :
    Except StatError ℕ :=
  if baseline_rate ≤ 0 ∨ 1 ≤ baseline_rate ∨ mde ≤ 0 ∨
      1 ≤ baseline_rate + mde then
    .error .invalidInput
  else
    .ok ⌈sampleSizeFormula (zquant (1 - alpha / 2) + zquant power)
          baseline_rate mde⌉₊

/-- Modelled from the spec: `estimateDuration(sample_size_per_variant,
daily_traffic, variant_count) = ⌈n · variants / traffic⌉` (§4.2). -/
def estimateDuration (samplePerVariant variantCount dailyTraffic : ℕ) : ℕ :=
  ⌈((samplePerVariant * variantCount : ℕ) : ℚ) / (dailyTraffic : ℚ)⌉₊

/-! ## ExperimentDesignOrchestrator

`ExperimentDesignRequest` and the `design_card` shape are embedded from
`frontend/lib/api.ts`; the orchestration itself (spec §4.5) is modelled
from the spec since the backend source is absent. -/

/-- `ExperimentDesignRequest` from `frontend/lib/api.ts`. -/
structure ExperimentDesignRequest where
  description : String
  baseline_rate : Option ℚ
  minimum_detectable_effect : Option ℚ
  alpha : ℚ
  power : ℚ
  expected_daily_traffic : Option ℕ
deriving Repr

/-- The `design_card` object of `ExperimentDesignResponse` in
`frontend/lib/api.ts` (note the field `variants : string`). -/
structure DesignCard where
  goal : String
  hypothesis : String
  primary_metrics : List String
  secondary_metrics : List String
  guardrail_metrics : List String
  design_type : String
  variants : String
  population : Option String
  randomization_unit : Option String
  traffic_allocation : Option String
  sample_size_per_variant : Option ℕ
  estimated_duration_days : Option ℕ
  notes : List String
deriving Repr

/-- The text fields the spec delegates to the external language collaborator
(goal, hypothesis, metric lists, population, …); the orchestrator copies
them into the design card unchanged. -/
structure DesignTexts where
  goal : String
  hypothesis : String
  primary_metrics : List String
  secondary_metrics : List String
  guardrail_metrics : List String
  variants : String
  population : Option String
  randomization_unit : Option String
  traffic_allocation : Option String
deriving Repr

/-- Modelled from the spec: `design(...) → DesignCard` (§4.5).  Sample size
is computed only when both `baseline_rate` and `minimum_detectable_effect`
are present and the calculator succeeds; duration only when the sample size
succeeded and `expected_daily_traffic` is present (two variants, per the
default A/B design).  Missing prerequisites null the dependent field and
append a note; the operation itself never fails. -/
def design (zquant : ℚ → ℚ) (texts : DesignTexts)
    (req : ExperimentDesignRequest) : DesignCard :=
  let sample : Option ℕ :=
    match req.baseline_rate, req.minimum_detectable_effect with
    | some p, some m =>
      match computeSampleSize zquant p m req.alpha req.power with
      | .ok n => some n
      | .error _ => none
    | _, _ => none
  let duration : Option ℕ :=
    match req.expected_daily_traffic with
    | none => none
    | some t =>
      match sample with
      | some n => some (estimateDuration n 2 t)
      | none => none
  { goal := texts.goal
    hypothesis := texts.hypothesis
    primary_metrics := texts.primary_metrics
    secondary_metrics := texts.secondary_metrics
    guardrail_metrics := texts.guardrail_metrics
    design_type := "A/B Test"
    variants := texts.variants
    population := texts.population
    randomization_unit := texts.randomization_unit
    traffic_allocation := texts.traffic_allocation
    sample_size_per_variant := sample
    estimated_duration_days := duration
    notes :=
      (if sample.isNone then
        ["Sample size not computed: baseline rate or MDE missing or invalid"]
      else []) ++
      (if duration.isNone then
        ["Duration not estimated: daily traffic missing or sample size unavailable"]
      else []) }

/-! ## ResultsOrchestrator

Modelled from the spec (no backend source in the repository): §4.6
`analyze(mode, payload)`.  The `uplift` mode is an explicit unimplemented
stub; `did` mode assembles the 2×2 panel from the request's data points
(exactly one point per (group, period) cell) and runs `analyzeDiD`. -/

/-- Outcome envelope of a causal analysis: either a DiD result or an
explicit not-implemented marker (spec §7 `UnsupportedMode`), distinct from
any error. -/
inductive CausalOutcome where
  | didSuccess (result : DiDResult)
  | notImplemented (message : String)
deriving DecidableEq, Repr

/-- Orchestrator-level errors for causal analysis requests. -/
inductive OrchestratorError where
  | invalidInput
  | missingPayload
deriving DecidableEq, Repr

/-- The unique data point for a given (group, period) cell, when there is
exactly one. -/
def findCell (points : List DiDDataPoint) (g : DiDGroup) (pd : DiDPeriod) :
    Option DiDCell :=
  match points.filter (fun d => decide (d.group = g ∧ d.period = pd)) with
  | [d] => some { users := d.users, outcome := d.outcome }
  | _ => none

/-- Assemble a `DiDPanel` from a list of data points; `none` unless every
(group, period) combination is covered by exactly one point (the DiDPanel
invariant of spec §3). -/
def toPanel (points : List DiDDataPoint) : Option DiDPanel :=
  match findCell points .treatment .pre, findCell points .treatment .post,
      findCell points .control .pre, findCell points .control .post with
  | some tp, some tq, some cp, some cq =>
    some { treatment_pre := tp, treatment_post := tq,
           control_pre := cp, control_post := cq }
  | _, _, _, _ => none

/-- Modelled from the spec: `ResultsOrchestrator.analyze` for causal
requests (§4.6).  `uplift` returns an explicit not-implemented success
envelope; `did` requires a payload forming a valid panel and converts
analyzer failures into orchestrator errors. -/
def ResultsOrchestrator.analyze (req : CausalAnalysisRequest) :
    Except OrchestratorError CausalOutcome :=
  match req.mode with
  | .uplift => .ok (.notImplemented "Uplift analysis is not implemented yet")
  | .did =>
    match req.did_data with
    | none => .error .missingPayload
    | some d =>
      match toPanel d.data with
      | none => .error .invalidInput
      | some panel =>
        match analyzeDiD panel d.metric_type with
        | .ok r => .ok (.didSuccess r)
        | .error _ => .error .invalidInput

/-! ## Analysis form: DiD submit handler

Embedded from `frontend/app/analysis/page.tsx`, `handleDiDSubmit`: the DiD
form keeps one `{users, outcome}` record per panel cell and the submit
handler builds the request payload as a literal four-element array, one
entry per (group, period) combination. -/

/-- One cell of the DiD form state (`didData.treatment_pre`, …); the inputs
are numbers (`parseInt(...) || 0`). -/
structure DiDCellInput where
  users : ℤ
  outcome : ℚ
deriving DecidableEq, Repr

/-- The DiD form state `didData` of the analysis page. -/
structure DiDFormState where
  treatment_pre : DiDCellInput
  treatment_post : DiDCellInput
  control_pre : DiDCellInput
  control_post : DiDCellInput
deriving DecidableEq, Repr

/-- The `formPayload` array built by `handleDiDSubmit`
(`frontend/app/analysis/page.tsx`): four `DiDDataPoint`s, one per
(group, period) cell of the form state, in a fixed order. -/
def didFormPayload (st : DiDFormState) : List DiDDataPoint :=
  [ { group := .treatment, period := .pre,
      users := st.treatment_pre.users, outcome := st.treatment_pre.outcome },
    { group := .treatment, period := .post,
      users := st.treatment_post.users, outcome := st.treatment_post.outcome },
    { group := .control, period := .pre,
      users := st.control_pre.users, outcome := st.control_pre.outcome },
    { group := .control, period := .post,
      users := st.control_post.users, outcome := st.control_post.outcome } ]

/-! ## API client layer (`frontend/lib/api.ts`)

Each client posts a request, and on a non-ok HTTP response parses the JSON
body and throws `new Error(error.detail || '<fallback>')`.  We embed the
decision made on an already-parsed response: `ok` flag plus the optional
`detail` field of the error body.  JavaScript's `||` takes the fallback
whenever `detail` is absent *or falsy* (in particular the empty string).
Throwing is embedded as `Except.error` carrying the message; the parsed
success body is returned abstractly as the response payload. -/

/-- A parsed HTTP error body: the optional `detail` field used for error
messages. -/
structure ResponseBody where
  detail : Option String
deriving DecidableEq, Repr

/-- An HTTP response as the clients see it: the `ok` flag and the parsed
JSON body. -/
structure HttpResponse where
  ok : Bool
  body : ResponseBody
deriving DecidableEq, Repr

/-- JavaScript `detail || fallback`: the fallback is used when `detail` is
absent or falsy (the empty string is falsy). -/
def jsOrElse (detail : Option String) (fallback : String) : String :=
  match detail with
  | some d => if d = "" then fallback else d
  | none => fallback

/-- `designExperiment` from `frontend/lib/api.ts`, at the response-handling
level: non-ok responses throw `Error(error.detail || 'Failed to design
experiment')`; ok responses return the parsed body. -/
def designExperiment (resp : HttpResponse) : Except String ResponseBody :=
  if resp.ok then .ok resp.body
  else .error (jsOrElse resp.body.detail "Failed to design experiment")

/-- `analyzeABTest` from `frontend/lib/api.ts`, at the response-handling
level. -/
def analyzeABTest (resp : HttpResponse) : Except String ResponseBody :=
  if resp.ok then .ok resp.body
  else .error (jsOrElse resp.body.detail "Failed to analyze A/B test")

/-- `analyzeCausal` from `frontend/lib/api.ts`, at the response-handling
level. -/
def analyzeCausal (resp : HttpResponse) : Except String ResponseBody :=
  if resp.ok then .ok resp.body
  else .error (jsOrElse resp.body.detail "Failed to analyze causal experiment")

/-- `sendAgentChat` from `frontend/lib/api.ts`, at the response-handling
level. -/
def sendAgentChat (resp : HttpResponse) : Except String ResponseBody :=
  if resp.ok then .ok resp.body
  else .error (jsOrElse resp.body.detail "Failed to send chat message")

/-! ## The declared field list of the design card type

`ExperimentDesignResponse.design_card` in `frontend/lib/api.ts`, lines
162–179, embedded field-by-field so claims about the *shape* of the design
card can be settled against the declaration itself. -/

/-- The TypeScript types occurring in the `design_card` object type. -/
inductive TsType where
  | str
  | num
  | strList
  | nullableStr
  | nullableNum
deriving DecidableEq, Repr

/-- The field declarations of `design_card` in `ExperimentDesignResponse`
(`frontend/lib/api.ts`), in source order. -/
def designCardFields : List (String × TsType) :=
  [ ("goal", .str),
    ("hypothesis", .str),
    ("primary_metrics", .strList),
    ("secondary_metrics", .strList),
    ("guardrail_metrics", .strList),
    ("design_type", .str),
    ("variants", .str),
    ("population", .nullableStr),
    ("randomization_unit", .nullableStr),
    ("traffic_allocation", .nullableStr),
    ("sample_size_per_variant", .nullableNum),
    ("estimated_duration_days", .nullableNum),
    ("notes", .strList) ]

/-! ## Concrete fixtures

Concrete inputs used to instantiate the theorems below: the spec's §8 DiD
scenario panel, a sample design request with the traffic field left empty,
and trivial stand-ins for the abstracted real-valued functions. -/

/-- The DiD panel of the spec's §8 scenario: `treatment_pre = {1000, 100}`,
`treatment_post = {1000, 150}`, `control_pre = {1000, 90}`,
`control_post = {1000, 110}`. -/
def scenarioPanel : DiDPanel :=
  { treatment_pre := { users := 1000, outcome := 100 }
    treatment_post := { users := 1000, outcome := 150 }
    control_pre := { users := 1000, outcome := 90 }
    control_post := { users := 1000, outcome := 110 } }

/-- A placeholder normal quantile: the usual `z ≈ 2` order of magnitude. -/
def exampleQuantile : ℚ → ℚ := fun _ => 2

/-- A placeholder two-sided tail function of the squared z statistic; it
satisfies `exampleTail 0 = 1` like the true normal tail. -/
def exampleTail : ℚ → ℚ := fun q => 1 / (1 + q)

/-- A placeholder confidence-interval half-width. -/
def exampleHalfWidth : ℕ → ℕ → ℚ → ℚ := fun _ _ _ => 1 / 10

/-- Collaborator-supplied texts for a sample design card. -/
def exampleTexts : DesignTexts :=
  { goal := "Increase checkout conversion"
    hypothesis := "A red button increases conversion"
    primary_metrics := ["cvr"]
    secondary_metrics := []
    guardrail_metrics := []
    variants := "2 (control + treatment)"
    population := none
    randomization_unit := none
    traffic_allocation := none }

/-- A design request with baseline rate and MDE supplied but
`expected_daily_traffic` left absent. -/
def exampleRequestNoTraffic : ExperimentDesignRequest :=
  { description := "Checkout button color test"
    baseline_rate := some (1 / 10)
    minimum_detectable_effect := some (1 / 50)
    alpha := 1 / 20
    power := 4 / 5
    expected_daily_traffic := none }

/-- A causal request in uplift mode. -/
def exampleUpliftRequest : CausalAnalysisRequest :=
  { mode := .uplift
    did_data := none
    uplift_data := some { data := [] } }

/-- A non-ok HTTP response whose error body carries a nonempty detail. -/
def exampleFailedResponse : HttpResponse :=
  { ok := false, body := { detail := some "baseline_rate out of range" } }

/-- A non-ok HTTP response whose error body has `detail` present but equal
to the empty string. -/
def emptyDetailResponse : HttpResponse :=
  { ok := false, body := { detail := some "" } }

/-! ## Theorems -/

/-- Helper for the sample-size monotonicity: over the valid domain the
variance-over-squared-effect ratio of the power formula is antitone in the
effect size. -/
lemma varianceRatio_le (p m1 m2 : ℚ) (hp0 : 0 < p) (hp1 : p < 1)
    (hm1 : 0 < m1) (hm12 : m1 ≤ m2) (hp2 : p + m2 < 1) :
    (p * (1 - p) + (p + m2) * (1 - (p + m2))) / m2 ^ 2 ≤
      (p * (1 - p) + (p + m1) * (1 - (p + m1))) / m1 ^ 2 := by
  have hm2 : 0 < m2 := lt_of_lt_of_le hm1 hm12
  have hpm1 : 0 < 1 - p - m1 := by linarith
  have hq : 0 < 1 - p := by linarith
  have hkey : 0 < p * (1 - p) + (1 - 2 * p) * m1 := by
    nlinarith [mul_pos hp0 hpm1, mul_pos hm1 hq]
  have hG : 0 ≤ 2 * (p * (1 - p)) * (m1 + m2) + (1 - 2 * p) * (m1 * m2) := by
    nlinarith [mul_nonneg hm2.le hkey.le, mul_pos (mul_pos hp0 hq) hm1,
      mul_pos (mul_pos hp0 hq) hm2]
  rw [div_le_div_iff₀ (by positivity) (by positivity)]
  nlinarith [mul_nonneg (sub_nonneg.mpr hm12) hG]

/-- C1: when `expected_daily_traffic` is absent from the design request, the
design card's `estimated_duration_days` is exactly `none` (the embedding of
JSON `null`) — by construction not `0` and not an error — for every request,
including those whose `sample_size_per_variant` was successfully computed. -/
theorem design_missing_traffic_duration_none (zquant : ℚ → ℚ)
    (texts : DesignTexts) (req : ExperimentDesignRequest)
    (h : req.expected_daily_traffic = none) :
    (design zquant texts req).estimated_duration_days = none := by
  simp [design, h]

/-- Witness for C1: on the concrete request with baseline rate `1/10`, MDE
`1/50` and no daily traffic, the duration is `none` even though the sample
size was computed. -/
theorem design_missing_traffic_duration_none_witness :
    exampleRequestNoTraffic.expected_daily_traffic = none ∧
      (design exampleQuantile exampleTexts
          exampleRequestNoTraffic).estimated_duration_days = none ∧
      (design exampleQuantile exampleTexts
          exampleRequestNoTraffic).sample_size_per_variant.isSome = true :=
  ⟨rfl,
    design_missing_traffic_duration_none exampleQuantile exampleTexts
      exampleRequestNoTraffic rfl,
    by norm_num [design, exampleRequestNoTraffic, computeSampleSize]⟩

/-- C2: for every DiD panel whose four cells have positive user counts,
proportion-mode `analyzeDiD` succeeds and its `did_estimate` is
`(treatment_post mean − treatment_pre mean) − (control_post mean −
control_pre mean)` with each cell mean equal to `outcome / users`. -/
theorem analyzeDiD_proportion_estimate_formula (panel : DiDPanel)
    (h1 : 0 < panel.treatment_pre.users) (h2 : 0 < panel.treatment_post.users)
    (h3 : 0 < panel.control_pre.users) (h4 : 0 < panel.control_post.users) :
    ∃ r : DiDResult, analyzeDiD panel .proportion = .ok r ∧
      r.did_estimate =
        (panel.treatment_post.outcome / (panel.treatment_post.users : ℚ) -
            panel.treatment_pre.outcome / (panel.treatment_pre.users : ℚ)) -
          (panel.control_post.outcome / (panel.control_post.users : ℚ) -
            panel.control_pre.outcome / (panel.control_pre.users : ℚ)) := by
  have hguard : ¬(panel.treatment_pre.users ≤ 0 ∨
      panel.treatment_post.users ≤ 0 ∨ panel.control_pre.users ≤ 0 ∨
      panel.control_post.users ≤ 0) := by
    push_neg
    exact ⟨h1, h2, h3, h4⟩
  unfold analyzeDiD
  rw [if_neg hguard]
  exact ⟨_, rfl, rfl⟩

/-- Witness for C2: on the spec's §8 scenario panel the estimate is
`3/100 = 0.03`. -/
theorem analyzeDiD_proportion_estimate_formula_witness :
    (0 < scenarioPanel.treatment_pre.users ∧
        0 < scenarioPanel.treatment_post.users ∧
        0 < scenarioPanel.control_pre.users ∧
        0 < scenarioPanel.control_post.users) ∧
      ∃ r : DiDResult, analyzeDiD scenarioPanel .proportion = .ok r ∧
        r.did_estimate = 3 / 100 := by
  refine ⟨by decide, ?_⟩
  obtain ⟨r, hok, hval⟩ :=
    analyzeDiD_proportion_estimate_formula scenarioPanel (by decide)
      (by decide) (by decide) (by decide)
  refine ⟨r, hok, ?_⟩
  rw [hval]
  norm_num [scenarioPanel]

/-- C6: for every DiD panel with positive users in all four cells and either
metric mode, swapping the treatment and control labels negates the DiD
estimate. -/
theorem analyzeDiD_swap_negates_estimate (panel : DiDPanel) (mt : MetricType)
    (h1 : 0 < panel.treatment_pre.users) (h2 : 0 < panel.treatment_post.users)
    (h3 : 0 < panel.control_pre.users) (h4 : 0 < panel.control_post.users) :
    ∃ r rs : DiDResult, analyzeDiD panel mt = .ok r ∧
      analyzeDiD (swapGroups panel) mt = .ok rs ∧
      rs.did_estimate = -r.did_estimate := by
  have hguard : ¬(panel.treatment_pre.users ≤ 0 ∨
      panel.treatment_post.users ≤ 0 ∨ panel.control_pre.users ≤ 0 ∨
      panel.control_post.users ≤ 0) := by
    push_neg
    exact ⟨h1, h2, h3, h4⟩
  have hguardSwap : ¬((swapGroups panel).treatment_pre.users ≤ 0 ∨
      (swapGroups panel).treatment_post.users ≤ 0 ∨
      (swapGroups panel).control_pre.users ≤ 0 ∨
      (swapGroups panel).control_post.users ≤ 0) := by
    push_neg
    exact ⟨h3, h4, h1, h2⟩
  unfold analyzeDiD
  rw [if_neg hguard, if_neg hguardSwap]
  refine ⟨_, _, rfl, rfl, ?_⟩
  show (cellMean (swapGroups panel).treatment_post -
        cellMean (swapGroups panel).treatment_pre) -
      (cellMean (swapGroups panel).control_post -
        cellMean (swapGroups panel).control_pre) =
    -((cellMean panel.treatment_post - cellMean panel.treatment_pre) -
        (cellMean panel.control_post - cellMean panel.control_pre))
  show (cellMean panel.control_post - cellMean panel.control_pre) -
      (cellMean panel.treatment_post - cellMean panel.treatment_pre) =
    -((cellMean panel.treatment_post - cellMean panel.treatment_pre) -
        (cellMean panel.control_post - cellMean panel.control_pre))
  ring

/-- Witness for C6: the swap antisymmetry instantiated on the §8 scenario
panel in proportion mode. -/
theorem analyzeDiD_swap_negates_estimate_witness :
    (0 < scenarioPanel.treatment_pre.users ∧
        0 < scenarioPanel.treatment_post.users ∧
        0 < scenarioPanel.control_pre.users ∧
        0 < scenarioPanel.control_post.users) ∧
      ∃ r rs : DiDResult, analyzeDiD scenarioPanel .proportion = .ok r ∧
        analyzeDiD (swapGroups scenarioPanel) .proportion = .ok rs ∧
        rs.did_estimate = -r.did_estimate :=
  ⟨by decide,
    analyzeDiD_swap_negates_estimate scenarioPanel .proportion (by decide)
      (by decide) (by decide) (by decide)⟩

/-- C3: for every `n > 0` and `0 ≤ x ≤ n`, the pooled z-test on two
identical samples succeeds (it is not an error) and returns `p_value = 1`,
for any tail function agreeing with the normal tail at a zero statistic —
covering both the zero-pooled-variance guard and the `z = 0` case. -/
theorem twoProportionZTest_identical_samples_pvalue_one (tail : ℚ → ℚ)
    (x n : ℕ) (hn : 0 < n) (hx : x ≤ n) (htail : tail 0 = 1) :
    ∃ r : ZTestResult, twoProportionZTest tail x n x n = .ok r ∧
      r.p_value = 1 := by
  have hguard : ¬(n = 0 ∨ n = 0) := by
    simp [hn.ne']
  have hz : zSquared x n x n = 0 := by
    unfold zSquared
    rw [sub_self]
    simp
  unfold twoProportionZTest
  rw [if_neg hguard]
  by_cases hv : pooledVariance x n x n = 0
  · rw [if_pos hv]
    exact ⟨_, rfl, rfl⟩
  · rw [if_neg hv]
    exact ⟨_, rfl, by simp [hz, htail]⟩

/-- Witness for C3: identical samples `x = 5, n = 10` with a concrete tail
function whose value at `0` is `1`. -/
theorem twoProportionZTest_identical_samples_pvalue_one_witness :
    (0 < 10 ∧ 5 ≤ 10 ∧ exampleTail 0 = 1) ∧
      ∃ r : ZTestResult, twoProportionZTest exampleTail 5 10 5 10 = .ok r ∧
        r.p_value = 1 :=
  ⟨⟨by decide, by decide, by norm_num [exampleTail]⟩,
    twoProportionZTest_identical_samples_pvalue_one exampleTail 5 10
      (by decide) (by decide) (by norm_num [exampleTail])⟩

/-- C4: with baseline rate, alpha and power held fixed, `computeSampleSize`
is monotonically decreasing in the MDE over the valid domain
(`baseline_rate ∈ (0,1)`, `mde > 0`, `p2 = baseline_rate + mde < 1`): a
larger minimum detectable effect never yields a larger sample size. -/
theorem computeSampleSize_antitone_in_mde (zquant : ℚ → ℚ)
    (p m1 m2 alpha power : ℚ) (hp0 : 0 < p) (hp1 : p < 1) (hm1 : 0 < m1)
    (hm12 : m1 ≤ m2) (hp2 : p + m2 < 1) :
    ∃ n1 n2 : ℕ, computeSampleSize zquant p m1 alpha power = .ok n1 ∧
      computeSampleSize zquant p m2 alpha power = .ok n2 ∧ n2 ≤ n1 := by
  have hm2 : 0 < m2 := lt_of_lt_of_le hm1 hm12
  have hg1 : ¬(p ≤ 0 ∨ 1 ≤ p ∨ m1 ≤ 0 ∨ 1 ≤ p + m1) := by
    push_neg
    exact ⟨hp0, hp1, hm1, by linarith⟩
  have hg2 : ¬(p ≤ 0 ∨ 1 ≤ p ∨ m2 ≤ 0 ∨ 1 ≤ p + m2) := by
    push_neg
    exact ⟨hp0, hp1, hm2, hp2⟩
  refine ⟨⌈sampleSizeFormula (zquant (1 - alpha / 2) + zquant power) p m1⌉₊,
    ⌈sampleSizeFormula (zquant (1 - alpha / 2) + zquant power) p m2⌉₊,
    ?_, ?_, ?_⟩
  · unfold computeSampleSize
    rw [if_neg hg1]
  · unfold computeSampleSize
    rw [if_neg hg2]
  · apply Nat.ceil_le_ceil
    unfold sampleSizeFormula
    exact mul_le_mul_of_nonneg_left
      (varianceRatio_le p m1 m2 hp0 hp1 hm1 hm12 hp2) (sq_nonneg _)

/-- Witness for C4: baseline rate `1/10`, MDEs `1/50 ≤ 1/20`, fixed alpha
`1/20` and power `4/5`, with a concrete quantile function. -/
theorem computeSampleSize_antitone_in_mde_witness :
    ((0 : ℚ) < 1 / 10 ∧ (1 : ℚ) / 10 < 1 ∧ (0 : ℚ) < 1 / 50 ∧
        (1 : ℚ) / 50 ≤ 1 / 20 ∧ (1 : ℚ) / 10 + 1 / 20 < 1) ∧
      ∃ n1 n2 : ℕ,
        computeSampleSize exampleQuantile (1 / 10) (1 / 50) (1 / 20) (4 / 5) =
          .ok n1 ∧
        computeSampleSize exampleQuantile (1 / 10) (1 / 20) (1 / 20) (4 / 5) =
          .ok n2 ∧
        n2 ≤ n1 :=
  ⟨⟨by norm_num, by norm_num, by norm_num, by norm_num, by norm_num⟩,
    computeSampleSize_antitone_in_mde exampleQuantile (1 / 10) (1 / 50)
      (1 / 20) (1 / 20) (4 / 5) (by norm_num) (by norm_num) (by norm_num)
      (by norm_num) (by norm_num)⟩

/-- C5: for every `n > 0` and `0 ≤ successes ≤ n` and any nonnegative
half-width, `proportionCI` succeeds and its interval `[low, high]`
satisfies `0 ≤ low ≤ successes/n ≤ high ≤ 1`. -/
theorem proportionCI_bounds_ordered (halfWidth : ℕ → ℕ → ℚ → ℚ)
    (successes n : ℕ) (confidence : ℚ) (hn : 0 < n) (hs : successes ≤ n)
    (hh : 0 ≤ halfWidth successes n confidence) :
    ∃ ci : ℚ × ℚ, proportionCI halfWidth successes n confidence = .ok ci ∧
      0 ≤ ci.1 ∧ ci.1 ≤ (successes : ℚ) / (n : ℚ) ∧
      (successes : ℚ) / (n : ℚ) ≤ ci.2 ∧ ci.2 ≤ 1 := by
  have hn0 : (0 : ℚ) < (n : ℚ) := by exact_mod_cast hn
  have hp0 : 0 ≤ (successes : ℚ) / (n : ℚ) :=
    div_nonneg (by positivity) hn0.le
  have hp1 : (successes : ℚ) / (n : ℚ) ≤ 1 := by
    rw [div_le_one hn0]
    exact_mod_cast hs
  refine ⟨(max 0 ((successes : ℚ) / (n : ℚ) -
        halfWidth successes n confidence),
      min 1 ((successes : ℚ) / (n : ℚ) + halfWidth successes n confidence)),
    ?_, ?_, ?_, ?_, ?_⟩
  · unfold proportionCI
    rw [if_neg hn.ne']
  · exact le_max_left _ _
  · exact max_le hp0 (by linarith)
  · exact le_min hp1 (by linarith)
  · exact min_le_left _ _

/-- Witness for C5: `successes = 5, n = 10` with the concrete nonnegative
half-width `1/10`. -/
theorem proportionCI_bounds_ordered_witness :
    (0 < 10 ∧ 5 ≤ 10 ∧ 0 ≤ exampleHalfWidth 5 10 (19 / 20)) ∧
      ∃ ci : ℚ × ℚ, proportionCI exampleHalfWidth 5 10 (19 / 20) = .ok ci ∧
        0 ≤ ci.1 ∧ ci.1 ≤ (5 : ℚ) / (10 : ℚ) ∧
        (5 : ℚ) / (10 : ℚ) ≤ ci.2 ∧ ci.2 ≤ 1 :=
  ⟨⟨by decide, by decide, by norm_num [exampleHalfWidth]⟩,
    proportionCI_bounds_ordered exampleHalfWidth 5 10 (19 / 20) (by decide)
      (by decide) (by norm_num [exampleHalfWidth])⟩

/-- C7: every request payload built by the analysis form's DiD submit
handler (`handleDiDSubmit`) has exactly four data points, with exactly one
point for each (group, period) combination — the DiDPanel invariant. -/
theorem didFormPayload_panel_invariant (st : DiDFormState) :
    (didFormPayload st).length = 4 ∧
      ∀ g : DiDGroup, ∀ pd : DiDPeriod,
        ((didFormPayload st).filter
            (fun d => decide (d.group = g ∧ d.period = pd))).length = 1 := by
  refine ⟨rfl, ?_⟩
  intro g pd
  cases g <;> cases pd <;> rfl

/-- C8: every causal analysis request in `uplift` mode yields a successful
envelope carrying the explicit not-implemented marker — not an exception,
not an orchestrator error, and not an empty DiD success. -/
theorem resultsOrchestrator_uplift_not_implemented
    (req : CausalAnalysisRequest) (h : req.mode = .uplift) :
    ResultsOrchestrator.analyze req =
      .ok (.notImplemented "Uplift analysis is not implemented yet") := by
  unfold ResultsOrchestrator.analyze
  rw [h]

/-- Witness for C8: a concrete uplift-mode request. -/
theorem resultsOrchestrator_uplift_not_implemented_witness :
    exampleUpliftRequest.mode = .uplift ∧
      ResultsOrchestrator.analyze exampleUpliftRequest =
        .ok (.notImplemented "Uplift analysis is not implemented yet") :=
  ⟨rfl, resultsOrchestrator_uplift_not_implemented exampleUpliftRequest rfl⟩

/-- Counterexample for C9: the `design_card` type declared in
`frontend/lib/api.ts` has no field named `variants_count` at all, so no
design response can contain an integer `variants_count` field. -/
theorem designCard_no_variants_count_field :
    "variants_count" ∉ designCardFields.map Prod.fst := by
  decide

/-- C9 (amended): the design card's variant information lives in a field
named `variants` of TypeScript type `string` — not an integer field named
`variants_count`. -/
theorem designCard_variants_string_field :
    ("variants", TsType.str) ∈ designCardFields ∧
      "variants_count" ∉ designCardFields.map Prod.fst := by
  decide

/-- Counterexample for C10: on a non-ok response whose body has the
`detail` field present but equal to the empty string, `designExperiment`
throws the fixed fallback message, not the present `detail` value. -/
theorem apiClients_empty_detail_uses_fallback :
    designExperiment emptyDetailResponse =
        .error "Failed to design experiment" ∧
      "Failed to design experiment" ≠ "" := by
  constructor
  · rfl
  · decide

/-- C10 (amended): on every non-ok response each API client throws (returns
the error branch, never a success value); the thrown message is the body's
`detail` field when it is present *and nonempty*, and the client's fixed
fallback message when `detail` is absent or empty (JavaScript `||`
treats the empty string as falsy). -/
theorem apiClients_error_message_policy (resp : HttpResponse)
    (h : resp.ok = false) :
    (∀ d : String, resp.body.detail = some d → d ≠ "" →
        designExperiment resp = .error d ∧
        analyzeABTest resp = .error d ∧
        analyzeCausal resp = .error d ∧
        sendAgentChat resp = .error d) ∧
      ((resp.body.detail = none ∨ resp.body.detail = some "") →
        designExperiment resp = .error "Failed to design experiment" ∧
        analyzeABTest resp = .error "Failed to analyze A/B test" ∧
        analyzeCausal resp = .error "Failed to analyze causal experiment" ∧
        sendAgentChat resp = .error "Failed to send chat message") ∧
      (∀ b : ResponseBody, designExperiment resp ≠ .ok b ∧
        analyzeABTest resp ≠ .ok b ∧ analyzeCausal resp ≠ .ok b ∧
        sendAgentChat resp ≠ .ok b) := by
  refine ⟨?_, ?_, ?_⟩
  · intro d hd hne
    simp [designExperiment, analyzeABTest, analyzeCausal, sendAgentChat,
      jsOrElse, h, hd, hne]
  · intro hcase
    rcases hcase with hc | hc <;>
      simp [designExperiment, analyzeABTest, analyzeCausal, sendAgentChat,
        jsOrElse, h, hc]
  · intro b
    simp [designExperiment, analyzeABTest, analyzeCausal, sendAgentChat, h]

/-- Witness for C10 (amended): a concrete non-ok response carrying a
nonempty detail message, which every client surfaces verbatim. -/
theorem apiClients_error_message_policy_witness :
    exampleFailedResponse.ok = false ∧
      designExperiment exampleFailedResponse =
        .error "baseline_rate out of range" :=
  ⟨rfl,
    ((apiClients_error_message_policy exampleFailedResponse rfl).1
        "baseline_rate out of range" rfl (by decide)).1⟩

end GrowthCopilot
